import Mathlib

/-!
Shallow embedding of the owasm VM host-call layer
(`packages/vm/src/imports.rs` and `packages/vm/src/vm.rs`).

Guest-side i64 values are modelled as `Int`; Rust `as usize` casts are
modelled by `as_usize` (two's-complement reinterpretation into the
64-bit unsigned range).  Bytes are `Nat`s, guest linear memory is a
size together with a byte map, and the host `Env` trait is a record of
pure fields — one per trait method — so a call's outcome is a function
of the record.  Handlers additionally return the list of effectful
`Env` calls they made, so "the Env method was not invoked" is the
trace being empty.
-/

namespace Owasm

/-- The error taxonomy of `error.rs`, as used by `imports.rs`/`vm.rs`
and listed in the spec's section 4.1. -/
inductive Error where
  | CompileError
  | InstantiationError
  | RunError
  | OutOfGasError
  | MemoryOutOfBoundError
  | BadMemorySectionError
  | SpanTooSmallError
  | UnavailableDataError
  | WrongPeriodActionError
  deriving DecidableEq, Repr

/-- A wasmer `Memory`: its current size in bytes (`size().bytes().0`)
and the byte stored at each address (`view()[i]`). -/
structure Memory where
  size : Nat
  data : Nat → Nat

/-- A wasmer `Instance`, reduced to what `Environment::memory` reads
from it: the list of memories found among its exports. -/
structure Instance where
  memories : List Memory

/-- `ContextData { wasmer_instance: Option<NonNull<Instance>> }`. -/
structure ContextData where
  wasmer_instance : Option Instance

/-- The `Env` trait of `vm.rs`, as a record of pure, deterministic
fields: each trait method becomes one field holding the value (or
function of the arguments) the host would return. -/
structure Env where
  get_span_size : Int
  get_calldata : Except Error (List Nat)
  set_return_data : List Nat → Except Error Unit
  get_ask_count : Int
  get_min_count : Int
  get_prepare_time : Int
  get_execute_time : Except Error Int
  get_ans_count : Except Error Int
  ask_external_data : Int → Int → List Nat → Except Error Unit
  get_external_data_status : Int → Int → Except Error Int
  get_external_data : Int → Int → Except Error (List Nat)

/-- An effectful call a handler made on the `Env`. -/
inductive EnvCall where
  | get_calldata_call
  | set_return_data_call (data : List Nat)
  | ask_external_data_call (eid did : Int) (data : List Nat)
  | get_external_data_call (eid vid : Int)
  deriving DecidableEq, Repr

/-- The 64-bit unsigned modulus (`usize` on the 64-bit targets wasmer
runs on). -/
def usize_size : Nat := 2 ^ 64

/-- Rust `x as usize` on an `i64` value `x`: reinterpret the
two's-complement bits as unsigned. -/
def as_usize (x : Int) : Nat := (x % (usize_size : Int)).toNat

/-- `require_mem_range(max_range, require_range)` of `imports.rs`. -/
def require_mem_range (max_range require_range : Nat) : Except Error Unit :=
  if max_range < require_range then .error .MemoryOutOfBoundError else .ok ()

/-- `Environment::memory` of `vm.rs`: with an instance back-reference
present, collect its exported memories and `pop()` the last one;
no memory collected gives `MemoryOutOfBoundError`, while an absent
back-reference gives `BadMemorySectionError`. -/
def Environment.memory (ctx : ContextData) : Except Error Memory :=
  match ctx.wasmer_instance with
  | some inst =>
    match inst.memories.getLast? with
    | some m => .ok m
    | none => .error .MemoryOutOfBoundError
  | none => .error .BadMemorySectionError

/-- One `memory.view()[i].set(b)` store. -/
def set_byte (m : Memory) (i b : Nat) : Memory :=
  { m with data := fun j => if j = i then b else m.data j }

/-- The write loop `for (idx, byte) in data.iter().enumerate() {
memory.view()[ptr + idx].set(*byte) }`: store `data[0]` at `ptr`,
then the rest at the following addresses. -/
def write_bytes : Memory → Nat → List Nat → Memory
  | m, _, [] => m
  | m, ptr, b :: rest => write_bytes (set_byte m ptr b) (ptr + 1) rest

/-- The read `memory.view()[start..stop].iter().map(|c| c.get()).collect()`. -/
def read_range (m : Memory) (start stop : Nat) : List Nat :=
  (List.range (stop - start)).map (fun i => m.data (start + i))

/-- `Environment::decrease_gas_left` of `vm.rs`, over the metering
remaining-points counter `gas_left`: refuse when the request exceeds
the counter (leaving it unchanged), otherwise subtract
(`saturating_sub`, exact here since the guard ensures no underflow).
Returns the call's result and the counter after the call. -/
def decrease_gas_left (gas_left gas_used : Nat) : Except Error Unit × Nat :=
  if gas_used > gas_left then (.error .OutOfGasError, gas_left)
  else (.ok (), gas_left - gas_used)

/-- `do_gas` of `imports.rs`: ignore the advisory argument and debit
the fixed 12,500,000 quantum. -/
def do_gas (gas_left : Nat) (_gas : Int) : Except Error Unit × Nat :=
  decrease_gas_left gas_left 12500000

/-- `do_get_span_size` of `imports.rs`. -/
def do_get_span_size (e : Env) : Int := e.get_span_size

/-- `do_read_calldata` of `imports.rs`: resolve memory, check
`ptr + span_size` against the memory size, fetch calldata from the
Env, write it byte-by-byte at `ptr`, return its length.  Also returns
the memory as left by the call (when it was resolved) and the trace
of Env data calls. -/
def do_read_calldata (e : Env) (ctx : ContextData) (ptr : Int) :
    Except Error Int × Option Memory × List EnvCall :=
  let span_size := e.get_span_size
  match Environment.memory ctx with
  | .error err => (.error err, none, [])
  | .ok memory =>
    match require_mem_range memory.size (as_usize (ptr + span_size)) with
    | .error err => (.error err, some memory, [])
    | .ok _ =>
      match e.get_calldata with
      | .error err => (.error err, some memory, [.get_calldata_call])
      | .ok data =>
        (.ok (data.length : Int), some (write_bytes memory (as_usize ptr) data),
          [.get_calldata_call])

/-- `do_set_return_data` of `imports.rs`: the `len > span_size` check
comes first, then memory resolution and the range check, then the
bytes `[ptr, ptr+len)` are read out and handed to the Env. -/
def do_set_return_data (e : Env) (ctx : ContextData) (ptr len : Int) :
    Except Error Unit × List EnvCall :=
  let span_size := e.get_span_size
  if len > span_size then (.error .SpanTooSmallError, [])
  else
    match Environment.memory ctx with
    | .error err => (.error err, [])
    | .ok memory =>
      match require_mem_range memory.size (as_usize (ptr + span_size)) with
      | .error err => (.error err, [])
      | .ok _ =>
        let data := read_range memory (as_usize ptr) (as_usize (ptr + len))
        (e.set_return_data data, [.set_return_data_call data])

/-- `do_get_ask_count` of `imports.rs`. -/
def do_get_ask_count (e : Env) : Int := e.get_ask_count

/-- `do_get_min_count` of `imports.rs`. -/
def do_get_min_count (e : Env) : Int := e.get_min_count

/-- `do_get_prepare_time` of `imports.rs`. -/
def do_get_prepare_time (e : Env) : Int := e.get_prepare_time

/-- `do_get_execute_time` of `imports.rs`. -/
def do_get_execute_time (e : Env) : Except Error Int := e.get_execute_time

/-- `do_get_ans_count` of `imports.rs`. -/
def do_get_ans_count (e : Env) : Except Error Int := e.get_ans_count

/-- `do_ask_external_data` of `imports.rs`: same shape as
`do_set_return_data`, forwarding `eid`, `did` and the bytes to the
Env. -/
def do_ask_external_data (e : Env) (ctx : ContextData) (eid did ptr len : Int) :
    Except Error Unit × List EnvCall :=
  let span_size := e.get_span_size
  if len > span_size then (.error .SpanTooSmallError, [])
  else
    match Environment.memory ctx with
    | .error err => (.error err, [])
    | .ok memory =>
      match require_mem_range memory.size (as_usize (ptr + span_size)) with
      | .error err => (.error err, [])
      | .ok _ =>
        let data := read_range memory (as_usize ptr) (as_usize (ptr + len))
        (e.ask_external_data eid did data, [.ask_external_data_call eid did data])

/-- `do_get_external_data_status` of `imports.rs`. -/
def do_get_external_data_status (e : Env) (eid vid : Int) : Except Error Int :=
  e.get_external_data_status eid vid

/-- `do_read_external_data` of `imports.rs`: same shape as
`do_read_calldata`, with the data fetched by `get_external_data`. -/
def do_read_external_data (e : Env) (ctx : ContextData) (eid vid ptr : Int) :
    Except Error Int × Option Memory × List EnvCall :=
  let span_size := e.get_span_size
  match Environment.memory ctx with
  | .error err => (.error err, none, [])
  | .ok memory =>
    match require_mem_range memory.size (as_usize (ptr + span_size)) with
    | .error err => (.error err, some memory, [])
    | .ok _ =>
      match e.get_external_data eid vid with
      | .error err => (.error err, some memory, [.get_external_data_call eid vid])
      | .ok data =>
        (.ok (data.length : Int), some (write_bytes memory (as_usize ptr) data),
          [.get_external_data_call eid vid])

/-- The largest value a `u64` holds. -/
def U64_MAX : Nat := 2 ^ 64 - 1

/-- Rust `u64::saturating_add`. -/
def u64_sat_add (a b : Nat) : Nat := min (a + b) U64_MAX

/-- `VMLogic` of `vm.rs`: the per-invocation gas bundle (the `env`
field is carried separately by the handlers above). -/
structure VMLogic where
  gas_limit : Nat
  gas_used : Nat

/-- `VMLogic::new(env, gas)`. -/
def VMLogic.new (gas : Nat) : VMLogic := { gas_limit := gas, gas_used := 0 }

/-- `VMLogic::out_of_gas`. -/
def VMLogic.out_of_gas (vm : VMLogic) : Bool := decide (vm.gas_limit < vm.gas_used)

/-- `VMLogic::consume_gas`: saturating-add the amount into `gas_used`,
then fail iff the new state is out of gas.  Returns the state after
the call together with the result. -/
def VMLogic.consume_gas (vm : VMLogic) (gas : Nat) : VMLogic × Except Error Unit :=
  let vm2 : VMLogic := { vm with gas_used := u64_sat_add vm.gas_used gas }
  if vm2.out_of_gas then (vm2, .error .OutOfGasError) else (vm2, .ok ())

/-- The `MockEnv` of the `imports.rs` tests: span size 300, calldata
`[1]`, external data `[1]`, every effectful call accepted. -/
def mockEnv : Env where
  get_span_size := 300
  get_calldata := .ok [1]
  set_return_data := fun _ => .ok ()
  get_ask_count := 10
  get_min_count := 8
  get_prepare_time := 100000
  get_execute_time := .ok 100000
  get_ans_count := .ok 8
  ask_external_data := fun _ _ _ => .ok ()
  get_external_data_status := fun _ _ => .ok 1
  get_external_data := fun _ _ => .ok [1]

/-- A zero-filled memory of the given byte size. -/
def zeroMemory (size : Nat) : Memory := { size := size, data := fun _ => 0 }

/-- A context whose instance exports one memory of 100 bytes (too
small for span size 300). -/
def smallCtx : ContextData := { wasmer_instance := some { memories := [zeroMemory 100] } }

/-- A context whose instance exports one memory of 1024 bytes. -/
def bigCtx : ContextData := { wasmer_instance := some { memories := [zeroMemory 1024] } }

/-- An instance exporting no memory at all. -/
def noMemInstance : Instance := { memories := [] }

/-- A context whose back-reference is set to an instance exporting no
memory. -/
def noMemCtx : ContextData := { wasmer_instance := some noMemInstance }

end Owasm

namespace Owasm

/-! ## Helper lemmas -/

theorem as_usize_eq_toNat (x : Int) (h0 : 0 ≤ x) (h1 : x < (usize_size : Int)) :
    as_usize x = x.toNat := by
  unfold as_usize
  rw [Int.emod_eq_of_lt h0 h1]

theorem mem_guard_fail (sz : Nat) (x : Int) (h0 : 0 ≤ x) (h1 : x < (usize_size : Int))
    (hlt : (sz : Int) < x) :
    require_mem_range sz (as_usize x) = .error .MemoryOutOfBoundError := by
  rw [as_usize_eq_toNat x h0 h1, require_mem_range, if_pos (Int.lt_toNat.mpr hlt)]

theorem mem_guard_ok (sz : Nat) (x : Int) (h0 : 0 ≤ x) (h1 : x < (usize_size : Int))
    (hle : x ≤ (sz : Int)) :
    require_mem_range sz (as_usize x) = .ok () := by
  rw [as_usize_eq_toNat x h0 h1, require_mem_range, if_neg]
  simp only [not_lt]
  exact Int.toNat_le.mpr hle

theorem write_bytes_size (d : List Nat) : ∀ (m : Memory) (ptr : Nat),
    (write_bytes m ptr d).size = m.size := by
  induction d with
  | nil => intro m ptr; rfl
  | cons b rest ih =>
    intro m ptr
    simpa [write_bytes, set_byte] using ih (set_byte m ptr b) (ptr + 1)

theorem write_bytes_data (d : List Nat) : ∀ (m : Memory) (ptr i : Nat),
    (write_bytes m ptr d).data i =
      if ptr ≤ i ∧ i < ptr + d.length then d.getD (i - ptr) 0 else m.data i := by
  induction d with
  | nil =>
    intro m ptr i
    simp only [write_bytes, List.length_nil, Nat.add_zero]
    rw [if_neg (by omega)]
  | cons b rest ih =>
    intro m ptr i
    rw [write_bytes, ih]
    simp only [List.length_cons]
    rcases Nat.lt_trichotomy i ptr with hlt | heq | hgt
    · rw [if_neg (by omega), if_neg (by omega)]
      simp only [set_byte]
      rw [if_neg (by omega)]
    · subst heq
      rw [if_neg (by omega), if_pos ⟨le_refl i, by omega⟩]
      simp [set_byte]
    · by_cases hhi : i < ptr + 1 + rest.length
      · rw [if_pos ⟨by omega, hhi⟩, if_pos ⟨by omega, by omega⟩]
        have hidx : i - ptr = (i - (ptr + 1)) + 1 := by omega
        rw [hidx]
        simp
      · rw [if_neg (by omega), if_neg (by omega)]
        simp only [set_byte]
        rw [if_neg (by omega)]

end Owasm

namespace Owasm

/-! ## Claim theorems -/

/-- C1: for every import that touches guest memory (`read_calldata`,
`set_return_data`, `ask_external_data`, `read_external_data`), once
the exported memory is resolved, `ptr + span_size > memory size`
makes the call fail with `MemoryOutOfBoundError` — even though the
operation's actual length (`len ≤ span_size` for the length-taking
imports) may be smaller than `span_size` — and
`ptr + span_size ≤ memory size` makes the bounds check pass. -/
theorem import_mem_range_check (e : Env) (ctx : ContextData) (m : Memory)
    (ptr len eid did vid : Int)
    (hm : Environment.memory ctx = .ok m)
    (h0 : 0 ≤ ptr + e.get_span_size) (h1 : ptr + e.get_span_size < (usize_size : Int)) :
    ((m.size : Int) < ptr + e.get_span_size →
      (do_read_calldata e ctx ptr).1 = .error .MemoryOutOfBoundError
      ∧ (do_read_external_data e ctx eid vid ptr).1 = .error .MemoryOutOfBoundError
      ∧ (len ≤ e.get_span_size →
          (do_set_return_data e ctx ptr len).1 = .error .MemoryOutOfBoundError
          ∧ (do_ask_external_data e ctx eid did ptr len).1 = .error .MemoryOutOfBoundError))
    ∧ (ptr + e.get_span_size ≤ (m.size : Int) →
        require_mem_range m.size (as_usize (ptr + e.get_span_size)) = .ok ()) := by
  constructor
  · intro hlt
    have hfail := mem_guard_fail m.size _ h0 h1 hlt
    refine ⟨?_, ?_, fun hlen => ⟨?_, ?_⟩⟩
    · simp [do_read_calldata, hm, hfail]
    · simp [do_read_external_data, hm, hfail]
    · simp [do_set_return_data, hm, hfail, not_lt.mpr hlen]
    · simp [do_ask_external_data, hm, hfail, not_lt.mpr hlen]
  · intro hle
    exact mem_guard_ok m.size _ h0 h1 hle

/-- Witness for C1 at the mock environment (span size 300) and a
100-byte memory, with `ptr = 0`. -/
theorem import_mem_range_check_witness :
    (do_read_calldata mockEnv smallCtx 0).1 = .error .MemoryOutOfBoundError :=
  ((import_mem_range_check mockEnv smallCtx (zeroMemory 100) 0 0 0 0 0 rfl (by decide)
      (by decide)).1 (by decide)).1

/-- C2: `set_return_data(ptr, len)` and `ask_external_data(eid, did,
ptr, len)` with `len > span_size` fail with `SpanTooSmallError`, and
the `Env` is not invoked (the call trace is empty). -/
theorem span_too_small_rejected (e : Env) (ctx : ContextData) (ptr len eid did : Int)
    (h : len > e.get_span_size) :
    do_set_return_data e ctx ptr len = (.error .SpanTooSmallError, [])
    ∧ do_ask_external_data e ctx eid did ptr len = (.error .SpanTooSmallError, []) := by
  constructor <;> simp [do_set_return_data, do_ask_external_data, h]

/-- Witness for C2 at the mock environment (span size 300) with
`len = 301`. -/
theorem span_too_small_rejected_witness :
    do_set_return_data mockEnv bigCtx 0 301 = (.error .SpanTooSmallError, []) :=
  (span_too_small_rejected mockEnv bigCtx 0 301 0 0 (by decide)).1

/-- C3: the `gas` import debits exactly 12,500,000 remaining points
per invocation, independent of its `i32` argument; with fewer than
12,500,000 points remaining it raises `OutOfGasError` and leaves the
counter unchanged. -/
theorem gas_fixed_quantum (gas_left : Nat) (g g' : Int) :
    do_gas gas_left g = do_gas gas_left g'
    ∧ (gas_left < 12500000 → do_gas gas_left g = (.error .OutOfGasError, gas_left))
    ∧ (12500000 ≤ gas_left →
        do_gas gas_left g = (.ok (), gas_left - 12500000)
        ∧ (do_gas gas_left g).2 + 12500000 = gas_left) := by
  refine ⟨rfl, fun h => ?_, fun h => ⟨?_, ?_⟩⟩
  · simp [do_gas, decrease_gas_left, h]
  · simp [do_gas, decrease_gas_left, not_lt.mpr h]
  · simp [do_gas, decrease_gas_left, not_lt.mpr h]
    omega

/-- Witness for C3 at the gas limit the repository's tests use. -/
theorem gas_fixed_quantum_witness :
    do_gas 2500000000000 0 = (.ok (), 2500000000000 - 12500000) :=
  ((gas_fixed_quantum 2500000000000 0 1).2.2 (by decide)).1

end Owasm

namespace Owasm

/-- C4: `consume_gas` preserves `gas_limit`, `gas_used` is
non-decreasing, and the call returns `OutOfGasError` iff, after
adding the consumed amount, `gas_used > gas_limit` (and `Ok`
otherwise).  `hrep` is the `u64` representation bound on the starting
counter. -/
theorem consume_gas_contract (vm : VMLogic) (gas : Nat) (hrep : vm.gas_used ≤ U64_MAX) :
    (vm.consume_gas gas).1.gas_limit = vm.gas_limit
    ∧ vm.gas_used ≤ (vm.consume_gas gas).1.gas_used
    ∧ ((vm.consume_gas gas).2 = .error .OutOfGasError ↔
        vm.gas_limit < (vm.consume_gas gas).1.gas_used)
    ∧ (¬ vm.gas_limit < (vm.consume_gas gas).1.gas_used →
        (vm.consume_gas gas).2 = .ok ()) := by
  have hmono : vm.gas_used ≤ u64_sat_add vm.gas_used gas :=
    le_min (Nat.le_add_right _ _) hrep
  by_cases h : vm.gas_limit < u64_sat_add vm.gas_used gas
  · simp [VMLogic.consume_gas, VMLogic.out_of_gas, h, hmono]
  · simp [VMLogic.consume_gas, VMLogic.out_of_gas, h, hmono]

/-- Witness for C4 on a fresh `VMLogic` with gas limit 100 consuming
30 units. -/
theorem consume_gas_contract_witness :
    ((VMLogic.new 100).consume_gas 30).1.gas_limit = 100 :=
  (consume_gas_contract (VMLogic.new 100) 30 (by decide)).1

/-- C5 counterexample: with the back-reference set to an instance
exporting no memory, `Environment::memory` returns
`MemoryOutOfBoundError`, not `BadMemorySectionError` as claimed. -/
theorem memory_no_export_cex :
    Environment.memory noMemCtx = .error .MemoryOutOfBoundError
    ∧ Environment.memory noMemCtx ≠ .error .BadMemorySectionError := by
  refine ⟨rfl, fun h => ?_⟩
  exact Error.noConfusion (Except.error.inj h)

/-- C5 amended: when the back-reference is set but the instance
exports no memory, resolving the guest's exported memory fails with
`MemoryOutOfBoundError`; `BadMemorySectionError` is returned when the
back-reference itself is unset. -/
theorem memory_resolution_error_kinds (inst : Instance) (h : inst.memories = []) :
    Environment.memory { wasmer_instance := some inst } = .error .MemoryOutOfBoundError
    ∧ Environment.memory { wasmer_instance := none } = .error .BadMemorySectionError := by
  refine ⟨?_, rfl⟩
  simp [Environment.memory, h]

/-- Witness for the amended C5 at the concrete memory-less instance. -/
theorem memory_resolution_error_kinds_witness :
    Environment.memory { wasmer_instance := some noMemInstance }
      = .error .MemoryOutOfBoundError :=
  (memory_resolution_error_kinds noMemInstance rfl).1

/-- C6 counterexample: with span size 300, a 100-byte memory, `ptr =
0` and `len = 301`, both `ptr + span_size > memory size` and `len >
span_size` hold, yet `set_return_data` and `ask_external_data` end
with `SpanTooSmallError`, not `MemoryOutOfBoundError`: the length
check runs before the memory checks. -/
theorem span_check_order_cex :
    ((zeroMemory 100).size : Int) < 0 + mockEnv.get_span_size
    ∧ (301 : Int) > mockEnv.get_span_size
    ∧ Environment.memory smallCtx = .ok (zeroMemory 100)
    ∧ (do_set_return_data mockEnv smallCtx 0 301).1 = .error .SpanTooSmallError
    ∧ (do_set_return_data mockEnv smallCtx 0 301).1 ≠ .error .MemoryOutOfBoundError
    ∧ (do_ask_external_data mockEnv smallCtx 1 2 0 301).1 = .error .SpanTooSmallError
    ∧ (do_ask_external_data mockEnv smallCtx 1 2 0 301).1 ≠ .error .MemoryOutOfBoundError := by
  refine ⟨by decide, by decide, rfl, rfl, fun h => ?_, rfl, fun h => ?_⟩ <;>
    exact Error.noConfusion (Except.error.inj h)

/-- C6 amended: the `len > span_size` check precedes memory
resolution and the `ptr + span_size` bound check, so a call violating
both rules ends with `SpanTooSmallError`. -/
theorem span_check_precedes_mem_check (e : Env) (ctx : ContextData) (m : Memory)
    (ptr len eid did : Int)
    (hm : Environment.memory ctx = .ok m)
    (hmem : (m.size : Int) < ptr + e.get_span_size)
    (hlen : len > e.get_span_size) :
    (do_set_return_data e ctx ptr len).1 = .error .SpanTooSmallError
    ∧ (do_ask_external_data e ctx eid did ptr len).1 = .error .SpanTooSmallError := by
  constructor <;> simp [do_set_return_data, do_ask_external_data, hlen]

/-- Witness for the amended C6 at the concrete both-violations input. -/
theorem span_check_precedes_mem_check_witness :
    (do_set_return_data mockEnv smallCtx 0 301).1 = .error .SpanTooSmallError :=
  (span_check_precedes_mem_check mockEnv smallCtx (zeroMemory 100) 0 301 0 0 rfl
    (by decide) (by decide)).1

end Owasm

namespace Owasm

/-- C7: a `read_calldata(ptr)` call whose memory resolves and whose
bound check passes writes the Env-returned calldata `d` (whose length
the Env keeps within span size) byte-by-byte into guest memory at
`[ptr, ptr + d.length)`, leaves every other byte and the memory size
unchanged, and returns `d.length`; an Env error is surfaced as-is
with the memory untouched. -/
theorem read_calldata_spec (e : Env) (ctx : ContextData) (m : Memory) (ptr : Int)
    (hm : Environment.memory ctx = .ok m)
    (h0 : 0 ≤ ptr) (hs : 0 ≤ e.get_span_size)
    (h1 : ptr + e.get_span_size < (usize_size : Int))
    (hfit : ptr + e.get_span_size ≤ (m.size : Int)) :
    (∀ d, e.get_calldata = .ok d → (d.length : Int) ≤ e.get_span_size →
      do_read_calldata e ctx ptr
        = (.ok (d.length : Int), some (write_bytes m ptr.toNat d), [.get_calldata_call])
      ∧ (write_bytes m ptr.toNat d).size = m.size
      ∧ (∀ i, (write_bytes m ptr.toNat d).data i =
          if ptr.toNat ≤ i ∧ i < ptr.toNat + d.length then d.getD (i - ptr.toNat) 0
          else m.data i))
    ∧ (∀ err, e.get_calldata = .error err →
        do_read_calldata e ctx ptr = (.error err, some m, [.get_calldata_call])) := by
  have hok := mem_guard_ok m.size _ (by omega) h1 hfit
  have hptr : as_usize ptr = ptr.toNat := as_usize_eq_toNat ptr h0 (by omega)
  constructor
  · intro d hd _
    refine ⟨?_, write_bytes_size d m ptr.toNat, fun i => write_bytes_data d m ptr.toNat i⟩
    simp [do_read_calldata, hm, hok, hd, hptr]
  · intro err herr
    simp [do_read_calldata, hm, hok, herr]

/-- Witness for C7: the mock environment's calldata `[1]` lands at
address 0 of the 1024-byte memory. -/
theorem read_calldata_spec_witness :
    do_read_calldata mockEnv bigCtx 0
      = (.ok 1, some (write_bytes (zeroMemory 1024) 0 [1]), [.get_calldata_call]) :=
  ((read_calldata_spec mockEnv bigCtx (zeroMemory 1024) 0 rfl (by decide) (by decide)
      (by decide) (by decide)).1 [1] rfl (by decide)).1

/-- C8: the import handlers are deterministic.  In this embedding
every handler is a pure function of the `Env` record, the context and
its arguments, so two executions against Envs whose methods return
identical values, over the same context and remaining-points counter,
produce identical results, traces and memories.  (`do_gas` reads no
`Env` method: its outcome is a function of the shared counter alone,
so its determinism is definitional here.) -/
theorem import_handlers_deterministic (e1 e2 : Env) (ctx : ContextData)
    (h1 : e1.get_span_size = e2.get_span_size)
    (h2 : e1.get_calldata = e2.get_calldata)
    (h3 : e1.set_return_data = e2.set_return_data)
    (h4 : e1.get_ask_count = e2.get_ask_count)
    (h5 : e1.get_min_count = e2.get_min_count)
    (h6 : e1.get_prepare_time = e2.get_prepare_time)
    (h7 : e1.get_execute_time = e2.get_execute_time)
    (h8 : e1.get_ans_count = e2.get_ans_count)
    (h9 : e1.ask_external_data = e2.ask_external_data)
    (h10 : e1.get_external_data_status = e2.get_external_data_status)
    (h11 : e1.get_external_data = e2.get_external_data) :
    do_get_span_size e1 = do_get_span_size e2
    ∧ (∀ ptr, do_read_calldata e1 ctx ptr = do_read_calldata e2 ctx ptr)
    ∧ (∀ ptr len, do_set_return_data e1 ctx ptr len = do_set_return_data e2 ctx ptr len)
    ∧ do_get_ask_count e1 = do_get_ask_count e2
    ∧ do_get_min_count e1 = do_get_min_count e2
    ∧ do_get_prepare_time e1 = do_get_prepare_time e2
    ∧ do_get_execute_time e1 = do_get_execute_time e2
    ∧ do_get_ans_count e1 = do_get_ans_count e2
    ∧ (∀ eid did ptr len, do_ask_external_data e1 ctx eid did ptr len
        = do_ask_external_data e2 ctx eid did ptr len)
    ∧ (∀ eid vid, do_get_external_data_status e1 eid vid
        = do_get_external_data_status e2 eid vid)
    ∧ (∀ eid vid ptr, do_read_external_data e1 ctx eid vid ptr
        = do_read_external_data e2 ctx eid vid ptr) := by
  have he : e1 = e2 := by
    cases e1
    cases e2
    simp_all
  subst he
  exact ⟨rfl, fun _ => rfl, fun _ _ => rfl, rfl, rfl, rfl, rfl, rfl,
    fun _ _ _ _ => rfl, fun _ _ => rfl, fun _ _ _ => rfl⟩

/-- Witness for C8 at the mock environment. -/
theorem import_handlers_deterministic_witness :
    do_read_calldata mockEnv bigCtx 0 = do_read_calldata mockEnv bigCtx 0 :=
  (import_handlers_deterministic mockEnv mockEnv bigCtx rfl rfl rfl rfl rfl rfl rfl rfl
    rfl rfl rfl).2.1 0

/-- C9: `decrease_gas_left` is atomic on error and never underflows:
when the requested amount exceeds the remaining-points counter it
returns `OutOfGasError` with the counter unchanged; otherwise it
succeeds and the counter decreases by exactly the requested amount. -/
theorem decrease_gas_left_atomic (gas_left gas_used : Nat) :
    (gas_left < gas_used →
      decrease_gas_left gas_left gas_used = (.error .OutOfGasError, gas_left))
    ∧ (gas_used ≤ gas_left →
        decrease_gas_left gas_left gas_used = (.ok (), gas_left - gas_used)
        ∧ (decrease_gas_left gas_left gas_used).2 + gas_used = gas_left) := by
  constructor
  · intro h
    simp [decrease_gas_left, h]
  · intro h
    refine ⟨by simp [decrease_gas_left, not_lt.mpr h], ?_⟩
    simp [decrease_gas_left, not_lt.mpr h]
    omega

/-- Witness for C9 in both branches' shape: success at 100 ← 30. -/
theorem decrease_gas_left_atomic_witness :
    decrease_gas_left 100 30 = (.ok (), 100 - 30) :=
  ((decrease_gas_left_atomic 100 30).2 (by decide)).1

/-- C10: `consume_gas` saturates at the `u64` maximum instead of
wrapping, and the out-of-gas state is absorbing: once `gas_used >
gas_limit`, every further `consume_gas` (any amount, including zero)
returns `OutOfGasError` and leaves the state out of gas. -/
theorem consume_gas_absorbing (vm : VMLogic) (gas : Nat) (hrep : vm.gas_used ≤ U64_MAX) :
    (vm.consume_gas gas).1.gas_used ≤ U64_MAX
    ∧ (vm.gas_limit < vm.gas_used →
        (vm.consume_gas gas).2 = .error .OutOfGasError
        ∧ (vm.consume_gas gas).1.gas_limit < (vm.consume_gas gas).1.gas_used) := by
  have hmono : vm.gas_used ≤ u64_sat_add vm.gas_used gas :=
    le_min (Nat.le_add_right _ _) hrep
  have hcap : u64_sat_add vm.gas_used gas ≤ U64_MAX := min_le_right _ _
  by_cases h : vm.gas_limit < u64_sat_add vm.gas_used gas
  · simp [VMLogic.consume_gas, VMLogic.out_of_gas, h, hcap]
  · have : ¬ vm.gas_limit < vm.gas_used := fun habs => h (lt_of_lt_of_le habs hmono)
    simp [VMLogic.consume_gas, VMLogic.out_of_gas, h, hcap, this]

/-- Witness for C10 on an already-out-of-gas state consuming zero. -/
theorem consume_gas_absorbing_witness :
    (({ gas_limit := 10, gas_used := 20 } : VMLogic).consume_gas 0).2
      = .error .OutOfGasError :=
  ((consume_gas_absorbing { gas_limit := 10, gas_used := 20 } 0 (by decide)).2
    (by decide)).1

end Owasm
